import Mathlib

/-!
Shallow embedding of `ml-100k.py`, a one-shot ETL script over the MovieLens
100K dataset.  Collections of the document store are modelled as Lean lists of
typed documents (the schema is fixed by the loaded flat files), aggregation
pipelines as the corresponding list transformations, `try/except` around
library calls as an `Except` computation driven by an oracle that says which
database calls raise, and the top-level orchestration as a state-passing
function over the whole database that also records its effects (writes,
printed lines, executed steps).
-/

namespace ML100K

/-- A row of `ml-100k/u.user` as loaded by `pd.read_csv` (line 20). -/
structure User where
  user_id : Int
  age : Int
  gender : String
  occupation : String
  zip_code : String
deriving DecidableEq

/-- A row of `ml-100k/u.item` as loaded by `pd.read_csv` (lines 27-28):
the five leading columns plus the 19 binary genre flags
`genre_0` … `genre_18`, kept here as a list indexed by genre index. -/
structure Movie where
  movie_id : Int
  title : String
  release_date : String
  video_release_date : String
  IMDb_URL : String
  genres : List Int
deriving DecidableEq

/-- A row of `ml-100k/u.data` as loaded by `pd.read_csv` (line 35). -/
structure Rating where
  user_id : Int
  movie_id : Int
  rating : Int
  timestamp : Int
deriving DecidableEq

/-- A document of the joined collection `ratings_userinfo_genres`
produced by the `$project` stage of `populate_user_movie_info_if_needed`
(lines 72-84): the rating triple, the matched user's demographics and the
matched movie's 19 genre flags. -/
structure RUGDoc where
  user_id : Int
  movie_id : Int
  rating : Int
  age : Int
  gender : String
  occupation : String
  genres : List Int
deriving DecidableEq

/-- A document of one of the statistics collections, as shaped by the final
`$project` stage of `build_and_insert_stats` (lines 130-139): the group value
(`age`, `gender` or `occupation`), the genre index, the rounded average
rating and the count. -/
structure StatDoc (γ : Type) where
  gval : γ
  genre_index : Nat
  avg_rating : ℚ
  count : Nat
deriving DecidableEq

/- ------------------------------------------------------------------ -/
/- `age_to_group` (lines 159-166).  Python `//` is floor division, hence
`Int.fdiv`. -/

/-- `age_to_group` (lines 159-166): convert a numeric age into a
decade-range string. -/
def age_to_group (age : Int) : String :=
  if age < 10 then "0-9"
  else
    toString (age.fdiv 10 * 10) ++ "-" ++ toString (age.fdiv 10 * 10 + 9)

/- ------------------------------------------------------------------ -/
/- Rounding.  The `$round` operator of the aggregation pipeline (line 136)
rounds to 3 decimal places, resolving ties to the nearest even value. -/

/-- Round a rational to the nearest integer, ties to even (the rounding
mode of the document store's `$round`). -/
def roundHalfEven (q : ℚ) : Int :=
  let f : Int := q.floor
  let r : ℚ := q - (f : ℚ)
  if r < 1/2 then f
  else if 1/2 < r then f + 1
  else if f % 2 = 0 then f else f + 1

/-- `$round` to 3 decimal places (line 136). -/
def round3 (q : ℚ) : ℚ := (roundHalfEven (q * 1000) : ℚ) / 1000

/- ------------------------------------------------------------------ -/
/- The aggregation pipeline of `populate_user_movie_info_if_needed`
(lines 53-86), stage by stage.  `$lookup` attaches the list of all
documents of the foreign collection whose foreign field equals the local
field; `$unwind` emits one document per element of that list (and none
when it is empty); the final `$project` keeps the rating triple, copies
the user's demographics and the 19 genre flags `genre_0` … `genre_18`
of the matched movie. -/

/-- `$lookup` of `users` on `user_id` (lines 54-61). -/
def lookupUsers (users : List User) (ratings : List Rating) :
    List (Rating × List User) :=
  ratings.map (fun r => (r, users.filter (fun u => u.user_id == r.user_id)))

/-- `$unwind` of `user_info` (line 62). -/
def unwindUserInfo (l : List (Rating × List User)) : List (Rating × User) :=
  l.flatMap (fun p => p.2.map (fun u => (p.1, u)))

/-- `$lookup` of `movies` on `movie_id` (lines 63-70). -/
def lookupMovies (movies : List Movie) (l : List (Rating × User)) :
    List (Rating × User × List Movie) :=
  l.map (fun p => (p.1, p.2, movies.filter (fun m => m.movie_id == p.1.movie_id)))

/-- `$unwind` of `movie_info` (line 71). -/
def unwindMovieInfo (l : List (Rating × User × List Movie)) :
    List (Rating × User × Movie) :=
  l.flatMap (fun t => t.2.2.map (fun m => (t.1, t.2.1, m)))

/-- The final `$project` (lines 72-84): rating triple, demographics of the
matched user, and the flags `genre_0` … `genre_18` of the matched movie. -/
def projectJoined (l : List (Rating × User × Movie)) : List RUGDoc :=
  l.map (fun t =>
    { user_id := t.1.user_id
      movie_id := t.1.movie_id
      rating := t.1.rating
      age := t.2.1.age
      gender := t.2.1.gender
      occupation := t.2.1.occupation
      genres := (List.range 19).map (fun i => t.2.2.genres.getD i 0) })

/-- The whole `ratings_userinfo_genres` pipeline run on the `ratings`
collection (line 90), reading `users` and `movies`. -/
def joinPipeline (ratings : List Rating) (users : List User)
    (movies : List Movie) : List RUGDoc :=
  projectJoined (unwindMovieInfo (lookupMovies movies
    (unwindUserInfo (lookupUsers users ratings))))

/- ------------------------------------------------------------------ -/
/- The aggregation pipeline of `build_and_insert_stats` (lines 110-141),
stage by stage.  The group field is modelled as an extraction function
`f : RUGDoc → γ` (the three calls use `age`, `gender`, `occupation`). -/

/-- An element of the `genre_flags` array built by the first `$project`
stage (lines 113-120), after `$unwind` (line 121): the group value and the
rating of the originating document together with one `{index, flag}`
pair. -/
structure GenreEntry (γ : Type) where
  gval : γ
  index : Nat
  flag : Int
  rating : Int
deriving DecidableEq

/-- First `$project` (lines 113-120) followed by `$unwind "$genre_flags"`
(line 121): one entry per document and genre index `0 ≤ i < genre_count`. -/
def statsProjectUnwind {γ : Type} (f : RUGDoc → γ) (genre_count : Nat)
    (docs : List RUGDoc) : List (GenreEntry γ) :=
  docs.flatMap (fun d =>
    (List.range genre_count).map (fun i =>
      { gval := f d, index := i, flag := d.genres.getD i 0, rating := d.rating }))

/-- `$match {genre_flags.flag: 1}` (line 122). -/
def statsMatch {γ : Type} (l : List (GenreEntry γ)) : List (GenreEntry γ) :=
  l.filter (fun e => e.flag == 1)

/-- `$group` by `(group value, genre_index)` with `$avg` of the rating and
`$sum 1` (lines 123-129): one output per distinct key. -/
def statsGroup {γ : Type} [DecidableEq γ] (l : List (GenreEntry γ)) :
    List ((γ × Nat) × ℚ × Nat) :=
  ((l.map (fun e => (e.gval, e.index))).dedup).map (fun k =>
    let grp := l.filter (fun e => e.gval == k.1 && e.index == k.2)
    (k, (grp.map (fun e => (e.rating : ℚ))).sum / (grp.length : ℚ), grp.length))

/-- Final `$project` (lines 130-139): reshape the `_id` key back into the
group field and `genre_index`, round the average to 3 decimal places, keep
the count. -/
def statsReshape {γ : Type} (l : List ((γ × Nat) × ℚ × Nat)) : List (StatDoc γ) :=
  l.map (fun t =>
    { gval := t.1.1, genre_index := t.1.2, avg_rating := round3 t.2.1, count := t.2.2 })

/-- The whole statistics pipeline of `build_and_insert_stats` run on a
source collection of joined rating documents. -/
def statsPipeline {γ : Type} [DecidableEq γ] (f : RUGDoc → γ) (genre_count : Nat)
    (docs : List RUGDoc) : List (StatDoc γ) :=
  statsReshape (statsGroup (statsMatch (statsProjectUnwind f genre_count docs)))

/- ------------------------------------------------------------------ -/
/- The chart layer (`make_bokeh_charts`, lines 169-204, and
`plot_statistics`, lines 207-236).  A Bokeh figure with one `vbar` call is
modelled by its x range, title, y-axis label and bars (pairs of the genre
label shown on the x axis and the bar height). -/

/-- A row of the DataFrame handed to `make_bokeh_charts`: columns
`[group, genre_index, avg_rating, count]` (the group column is the decade
range for age, the gender string, or the occupation). -/
structure StatRow where
  group : String
  genre_index : Nat
  avg_rating : ℚ
  count : Nat
deriving DecidableEq

/-- One Bokeh vertical-bar figure. -/
structure Plot where
  x_range : List String
  title : String
  y_label : String
  bars : List (String × ℚ)
deriving DecidableEq

/-- The first figure of a group value (lines 184-190): average rating per
genre. -/
def avgPlot (group_field val : String) (subset : List StatRow)
    (genre_labels : List String) : Plot :=
  { x_range := genre_labels
    title := group_field.capitalize ++ ": " ++ val ++ " — Avg Rating"
    y_label := "Avg Rating"
    bars := subset.map (fun r => (genre_labels.getD r.genre_index "", r.avg_rating)) }

/-- The second figure of a group value (lines 192-198): rating count per
genre. -/
def countPlot (group_field val : String) (subset : List StatRow)
    (genre_labels : List String) : Plot :=
  { x_range := genre_labels
    title := group_field.capitalize ++ ": " ++ val ++ " — Count"
    y_label := "Count"
    bars := subset.map (fun r => (genre_labels.getD r.genre_index "", (r.count : ℚ))) }

/-- `make_bokeh_charts` (lines 169-204): loop over the group values,
skip the ones with an empty subset, append a row of two figures for each
of the others; open the output file only when at least one row of figures
was produced. -/
def make_bokeh_charts (doc_df : List StatRow) (group_field : String)
    (group_values : List String) (genre_labels : List String)
    (output_html : String) : List (List Plot) × Option String :=
  let plots := group_values.foldl (fun plots v =>
    let subset := doc_df.filter (fun r => r.group == v)
    if subset.isEmpty then plots
    else plots ++ [[avgPlot group_field v subset genre_labels,
                    countPlot group_field v subset genre_labels]]) []
  (plots, if plots.isEmpty then none else some output_html)

/-- `sorted(column.unique())` of pandas: the distinct values in increasing
order. -/
def sortedUnique (l : List String) : List String :=
  (l.dedup).mergeSort (fun a b => decide (a ≤ b))

/-- The outcome of `plot_statistics`: per category, `none` when the
statistics collection was empty, otherwise the produced grid of figures
and the HTML file opened for it (if any). -/
structure PlotOut where
  age : Option (List (List Plot) × Option String)
  gender : Option (List (List Plot) × Option String)
  occupation : Option (List (List Plot) × Option String)
deriving DecidableEq

/-- `plot_statistics` (lines 207-236): fetch each statistics collection,
for age map numeric ages to decade groups first, rename the group column
to `group`, and chart each category into its own HTML file. -/
def plot_statistics (age_stats : List (StatDoc Int))
    (gender_stats occupation_stats : List (StatDoc String))
    (genre_labels : List String) : PlotOut :=
  { age :=
      if age_stats.isEmpty then none
      else
        let df := age_stats.map (fun s =>
          ({ group := age_to_group s.gval, genre_index := s.genre_index,
             avg_rating := s.avg_rating, count := s.count } : StatRow))
        some (make_bokeh_charts df "group" (sortedUnique (df.map (fun r => r.group)))
          genre_labels "age_group_charts.html")
    gender :=
      if gender_stats.isEmpty then none
      else
        let df := gender_stats.map (fun s =>
          ({ group := s.gval, genre_index := s.genre_index,
             avg_rating := s.avg_rating, count := s.count } : StatRow))
        some (make_bokeh_charts df "group" (sortedUnique (df.map (fun r => r.group)))
          genre_labels "gender_charts.html")
    occupation :=
      if occupation_stats.isEmpty then none
      else
        let df := occupation_stats.map (fun s =>
          ({ group := s.gval, genre_index := s.genre_index,
             avg_rating := s.avg_rating, count := s.count } : StatRow))
        some (make_bokeh_charts df "group" (sortedUnique (df.map (fun r => r.group)))
          genre_labels "occupation_charts.html") }

/- ------------------------------------------------------------------ -/
/- Orchestration.  The whole MongoDB database of the script is one state
with the seven collections of `__main__` (lines 244-253).  Each library
call that can raise is driven by an oracle saying which calls fail; a
`try`/`except` of the source becomes a `match` on the call's `Except`
result.  Every step also records its effects: the successful writes, the
printed lines, and the orchestration step it implements. -/

/-- The database calls of the script that can raise. -/
inductive DbCall
  | insUsers
  | insMovies
  | insRatings
  | aggJoin
  | aggAge
  | aggGender
  | aggOcc
deriving DecidableEq

/-- The six orchestration steps of `__main__` (lines 258-268, with the
three statistics builds of `populate_statistics_if_needed`). -/
inductive Step
  | popData
  | popJoin
  | statsAge
  | statsGender
  | statsOcc
  | plotCharts
deriving DecidableEq

/-- The raw rows of the three MovieLens flat files, as parsed by
`pd.read_csv` (lines 20, 28, 35). -/
structure Files where
  u_user : List User
  u_item : List Movie
  u_data : List Rating
deriving DecidableEq

/-- The seven collections of the `movielens_100k` database
(lines 244-253). -/
structure DB where
  users : List User
  movies : List Movie
  ratings : List Rating
  rug : List RUGDoc
  ageStats : List (StatDoc Int)
  genderStats : List (StatDoc String)
  occStats : List (StatDoc String)
deriving DecidableEq

/-- Observable effects of a step: successful writes, printed lines,
executed steps. -/
structure Eff where
  writes : List DbCall
  logs : List String
  steps : List Step
deriving DecidableEq

/-- Sequencing of effects. -/
def Eff.seq (a b : Eff) : Eff :=
  { writes := a.writes ++ b.writes
    logs := a.logs ++ b.logs
    steps := a.steps ++ b.steps }

instance : Append Eff := ⟨Eff.seq⟩

/-- `insert_many`: append the documents to the collection, unless the
oracle makes the call raise. -/
def insert_many {α : Type} (oracle : DbCall → Bool) (c : DbCall)
    (col rows : List α) : Except String (List α) :=
  if oracle c then Except.error "insert failed" else Except.ok (col ++ rows)

/-- A server-side aggregation with an `$out` stage: on success the
pipeline's result replaces the target collection, unless the oracle makes
the call raise. -/
def aggregate {α : Type} (oracle : DbCall → Bool) (c : DbCall) (res : α) :
    Except String α :=
  if oracle c then Except.error "aggregation failed" else Except.ok res

/-- The failure oracle of a run in which no database call raises. -/
def noFail : DbCall → Bool := fun _ => false

/-- The `pd.read_csv` invocation for one flat file: path, separator,
encoding, column names and the number of leading columns kept. -/
structure CsvSpec where
  path : String
  sep : String
  encoding : Option String
  names : List String
  usecols : Option Nat
deriving DecidableEq

/-- The `read_csv` invocation for `u.user` (line 20). -/
def users_csv : CsvSpec :=
  { path := "ml-100k/u.user", sep := "|", encoding := none,
    names := ["user_id", "age", "gender", "occupation", "zip_code"],
    usecols := none }

/-- The `read_csv` invocation for `u.item` (lines 27-28). -/
def movies_csv : CsvSpec :=
  { path := "ml-100k/u.item", sep := "|", encoding := some "latin-1",
    names := ["movie_id", "title", "release_date", "video_release_date", "IMDb_URL"]
      ++ (List.range 19).map (fun i => "genre_" ++ toString i),
    usecols := some 24 }

/-- The `read_csv` invocation for `u.data` (line 35). -/
def ratings_csv : CsvSpec :=
  { path := "ml-100k/u.data", sep := "\t", encoding := none,
    names := ["user_id", "movie_id", "rating", "timestamp"],
    usecols := none }

/-- Record-level semantics of `pd.read_csv` with explicit `names`
followed by `.to_dict("records")`: one record per row, associating each
kept column (the first `usecols` ones when `usecols` is given) with its
name. -/
def read_csv (spec : CsvSpec) (rows : List (List String)) :
    List (List (String × String)) :=
  rows.map (fun r =>
    spec.names.zip (match spec.usecols with
      | some k => r.take k
      | none => r))

/-- `populate_data_if_needed` (lines 10-41): skip when all three raw
collections already have documents; otherwise load the three flat files,
inserting each one inside its own `try`/`except`, and finish with the
completion message. -/
def populate_data_if_needed (oracle : DbCall → Bool) (files : Files) (db : DB) :
    Except String (DB × Eff) :=
  if db.users.length > 0 ∧ db.movies.length > 0 ∧ db.ratings.length > 0 then
    Except.ok (db,
      { writes := []
        logs := ["Data already exists in MongoDB collections. Skipping data load."]
        steps := [Step.popData] })
  else
    let r1 :=
      match insert_many oracle DbCall.insUsers db.users files.u_user with
      | Except.ok c => (c, ([] : List String), [DbCall.insUsers])
      | Except.error e =>
          (db.users, ["Warning: could not insert into users collection: " ++ e], [])
    let r2 :=
      match insert_many oracle DbCall.insMovies db.movies files.u_item with
      | Except.ok c => (c, ([] : List String), [DbCall.insMovies])
      | Except.error e =>
          (db.movies, ["Warning: could not insert into movies collection: " ++ e], [])
    let r3 :=
      match insert_many oracle DbCall.insRatings db.ratings files.u_data with
      | Except.ok c => (c, ([] : List String), [DbCall.insRatings])
      | Except.error e =>
          (db.ratings, ["Warning: could not insert into ratings collection: " ++ e], [])
    Except.ok ({ db with users := r1.1, movies := r2.1, ratings := r3.1 },
      { writes := r1.2.2 ++ r2.2.2 ++ r3.2.2
        logs := r1.2.1 ++ r2.2.1 ++ r3.2.1 ++ ["Data population complete."]
        steps := [Step.popData] })

/-- `populate_user_movie_info_if_needed` (lines 44-95): skip when the
joined collection already has documents; otherwise run the join pipeline,
whose `$out` writes the result, inside a `try`/`except`. -/
def populate_user_movie_info_if_needed (oracle : DbCall → Bool) (db : DB) :
    Except String (DB × Eff) :=
  if db.rug.length > 0 then
    Except.ok (db,
      { writes := []
        logs := ["ratings_userinfo_genres already has data. Skipping join step."]
        steps := [Step.popJoin] })
  else
    match aggregate oracle DbCall.aggJoin (joinPipeline db.ratings db.users db.movies) with
    | Except.error e =>
        Except.ok (db,
          { writes := []
            logs := ["Error during aggregation into ratings_userinfo_genres: " ++ e]
            steps := [Step.popJoin] })
    | Except.ok newRug =>
        Except.ok ({ db with rug := newRug },
          { writes := [DbCall.aggJoin]
            logs := ["ratings_userinfo_genres has been created and populated."]
            steps := [Step.popJoin] })

/-- `build_and_insert_stats` (lines 98-147): skip when the target already
has documents; otherwise run the statistics pipeline, whose `$out` writes
the result, inside a `try`/`except`. -/
def build_and_insert_stats {γ : Type} [DecidableEq γ] (oracle : DbCall → Bool)
    (call : DbCall) (step : Step) (group_field target_name : String)
    (f : RUGDoc → γ) (genre_count : Nat) (source : List RUGDoc)
    (target : List (StatDoc γ)) : Except String (List (StatDoc γ) × Eff) :=
  if target.length > 0 then
    Except.ok (target,
      { writes := []
        logs := [target_name ++ " already has data. Skipping stats aggregation."]
        steps := [step] })
  else
    match aggregate oracle call (statsPipeline f genre_count source) with
    | Except.ok res =>
        Except.ok (res,
          { writes := [call]
            logs := ["Statistics for " ++ group_field ++ " inserted into "
              ++ target_name ++ "."]
            steps := [step] })
    | Except.error e =>
        Except.ok (target,
          { writes := []
            logs := ["Error creating stats for " ++ group_field ++ ": " ++ e]
            steps := [step] })

/-- `populate_statistics_if_needed` (lines 150-156): build the age, gender
and occupation statistics, in this order. -/
def populate_statistics_if_needed (oracle : DbCall → Bool) (db : DB) :
    Except String (DB × Eff) := do
  let (a, e1) ← build_and_insert_stats oracle DbCall.aggAge Step.statsAge "age"
    "age_genre_rating_stats" RUGDoc.age 19 db.rug db.ageStats
  let (g, e2) ← build_and_insert_stats oracle DbCall.aggGender Step.statsGender "gender"
    "gender_genre_rating_stats" RUGDoc.gender 19 db.rug db.genderStats
  let (o, e3) ← build_and_insert_stats oracle DbCall.aggOcc Step.statsOcc "occupation"
    "occupation_genre_rating_stats" RUGDoc.occupation 19 db.rug db.occStats
  Except.ok ({ db with ageStats := a, genderStats := g, occStats := o }, e1 ++ e2 ++ e3)

/-- The genre labels of `__main__` (line 256). -/
def genreLabels : List String :=
  ["unknown", "Action", "Adventure", "Animation", "Children\x27s", "Comedy", "Crime",
   "Documentary", "Drama", "Fantasy", "Film-Noir", "Horror", "Musical", "Mystery",
   "Romance", "Sci-Fi", "Thriller", "War", "Western"]

/-- Step 8 of `__main__` (line 268): render the charts from the three
statistics collections.  The chart phase only reads the database. -/
def plotPhase (db : DB) : DB × PlotOut :=
  (db, plot_statistics db.ageStats db.genderStats db.occStats genreLabels)

/-- `__main__` (lines 239-270): the four phases in order, threading the
database state. -/
def mainRun (oracle : DbCall → Bool) (files : Files) (db : DB) :
    Except String (DB × Eff × PlotOut) := do
  let (db1, e1) ← populate_data_if_needed oracle files db
  let (db2, e2) ← populate_user_movie_info_if_needed oracle db1
  let (db3, e3) ← populate_statistics_if_needed oracle db2
  let (db4, out) := plotPhase db3
  Except.ok (db4,
    e1 ++ e2 ++ e3 ++
      { writes := []
        logs := ["All tasks completed successfully."]
        steps := [Step.plotCharts] },
    out)

/-- The `$group`/reshape part of the statistics pipeline, expressed as one
function from a group key to the output document. -/
def statOf {γ : Type} [DecidableEq γ] (l : List (GenreEntry γ)) (k : γ × Nat) :
    StatDoc γ :=
  let grp := l.filter (fun e => e.gval == k.1 && e.index == k.2)
  { gval := k.1
    genre_index := k.2
    avg_rating := round3 ((grp.map (fun e => (e.rating : ℚ))).sum / (grp.length : ℚ))
    count := grp.length }

/-- A concrete joined document used by witnesses. -/
def wdoc0 : RUGDoc :=
  { user_id := 1, movie_id := 10, rating := 4, age := 25, gender := "M",
    occupation := "student",
    genres := [0, 1, 1, 0, 0, 0, 0, 0, 0, 0, 0, 0, 0, 0, 0, 0, 0, 0, 0] }

/-- A second concrete joined document used by witnesses. -/
def wdoc1 : RUGDoc :=
  { user_id := 2, movie_id := 11, rating := 5, age := 25, gender := "F",
    occupation := "engineer",
    genres := [0, 1, 0, 0, 0, 0, 0, 0, 0, 0, 0, 0, 0, 0, 0, 0, 0, 0, 0] }

/- ------------------------------------------------------------------ -/
/- Concrete fixtures used by witnesses. -/

/-- A concrete user row. -/
def wuser : User :=
  { user_id := 1, age := 25, gender := "M", occupation := "student",
    zip_code := "12345" }

/-- A concrete movie row. -/
def wmovie : Movie :=
  { movie_id := 10, title := "Toy Story (1995)", release_date := "01-Jan-1995",
    video_release_date := "", IMDb_URL := "http://example",
    genres := [0, 1, 1, 0, 0, 0, 0, 0, 0, 0, 0, 0, 0, 0, 0, 0, 0, 0, 0] }

/-- A concrete rating row. -/
def wrating : Rating :=
  { user_id := 1, movie_id := 10, rating := 4, timestamp := 874965758 }

/-- Concrete flat-file contents. -/
def wfiles : Files :=
  { u_user := [wuser], u_item := [wmovie], u_data := [wrating] }

/-- The empty database. -/
def emptyDB : DB :=
  { users := [], movies := [], ratings := [], rug := [],
    ageStats := [], genderStats := [], occStats := [] }

/-- A database in which every collection has one document. -/
def wdb : DB :=
  { users := [wuser], movies := [wmovie], ratings := [wrating], rug := [wdoc0],
    ageStats := [{ gval := 25, genre_index := 1, avg_rating := 4, count := 1 }],
    genderStats := [{ gval := "M", genre_index := 1, avg_rating := 4, count := 1 }],
    occStats := [{ gval := "student", genre_index := 1, avg_rating := 4, count := 1 }] }

/-- A database in which only the `users` collection is populated. -/
def partialDB : DB := { emptyDB with users := [wuser] }

/-- A concrete statistics DataFrame row used by witnesses. -/
def wrow : StatRow :=
  { group := "20-29", genre_index := 1, avg_rating := 4, count := 2 }

end ML100K

namespace ML100K

/- ------------------------------------------------------------------ -/
/- Theorems for claim C9. -/

lemma fdiv_ten_bounds (a : Int) (h : 0 ≤ a) :
    a.fdiv 10 * 10 ≤ a ∧ a ≤ a.fdiv 10 * 10 + 9 := by
  have hfm := Int.fdiv_add_fmod a 10
  have h1 : 0 ≤ a.fmod 10 := Int.fmod_nonneg h (by norm_num)
  have h2 : a.fmod 10 < 10 := Int.fmod_lt_of_pos a (by norm_num)
  omega

/-- Claim C9: `age_to_group` is total on the integers; it returns `"0-9"`
for every age strictly below 10 (negative ages included); for every age
at least 10 it returns the string `"L-(L+9)"` with `L = (age // 10) * 10`
(floor division); and for every non-negative age the decade range it
returns contains the age. -/
theorem age_to_group_spec (a : Int) :
    (a < 10 → age_to_group a = "0-9") ∧
    (10 ≤ a →
      age_to_group a =
        toString (a.fdiv 10 * 10) ++ "-" ++ toString (a.fdiv 10 * 10 + 9)) ∧
    (0 ≤ a → ∃ L : Int,
      age_to_group a = toString L ++ "-" ++ toString (L + 9) ∧
        L ≤ a ∧ a ≤ L + 9) := by
  refine ⟨fun h => by simp [age_to_group, h], fun h => by
    simp [age_to_group]
    intro hlt
    omega, fun h => ?_⟩
  by_cases hlt : a < 10
  · refine ⟨0, ?_, by omega, by omega⟩
    simp [age_to_group, hlt]
    decide
  · refine ⟨a.fdiv 10 * 10, ?_, (fdiv_ten_bounds a h).1, (fdiv_ten_bounds a h).2⟩
    simp [age_to_group, hlt]

/-- Witness for C9 at the concrete age 23: the group is `"20-29"`. -/
theorem age_to_group_spec_witness :
    age_to_group 23 =
      toString ((23 : Int).fdiv 10 * 10) ++ "-" ++ toString ((23 : Int).fdiv 10 * 10 + 9) :=
  (age_to_group_spec 23).2.1 (by norm_num)

/- ------------------------------------------------------------------ -/
/- Helper lemmas for claim C1. -/

lemma statsPipeline_eq_map_statOf {γ : Type} [DecidableEq γ] (f : RUGDoc → γ)
    (docs : List RUGDoc) :
    statsPipeline f 19 docs
      = (((statsMatch (statsProjectUnwind f 19 docs)).map
            (fun e => (e.gval, e.index))).dedup).map
          (statOf (statsMatch (statsProjectUnwind f 19 docs))) := by
  simp only [statsPipeline, statsReshape, statsGroup, List.map_map]
  rfl

lemma range_filter_beq (n i : Nat) (c : Nat → Bool) (hi : i < n) :
    (List.range n).filter (fun j => (j == i) && c j) = if c i then [i] else [] := by
  induction n with
  | zero => omega
  | succ n ih =>
    rw [List.range_succ, List.filter_append]
    by_cases h : i < n
    · rw [ih h]
      have hne : (n == i) = false := by simp; omega
      simp [hne]
    · have hin : i = n := by omega
      subst hin
      have h0 : (List.range i).filter (fun j => (j == i) && c j) = [] := by
        rw [List.filter_eq_nil_iff]
        intro a ha
        simp only [List.mem_range] at ha
        simp only [Bool.and_eq_true, beq_iff_eq, not_and]
        intro hai
        omega
      rw [h0, List.filter_cons]
      simp

lemma statsEntries_doc_filter {γ : Type} [DecidableEq γ] (f : RUGDoc → γ)
    (d : RUGDoc) (g : γ) (i : Nat) (hi : i < 19) :
    (((List.range 19).map (fun j =>
        ({ gval := f d, index := j, flag := d.genres.getD j 0,
           rating := d.rating } : GenreEntry γ))).filter
      (fun e => (e.gval == g && e.index == i) && e.flag == 1))
      = if f d == g && d.genres.getD i 0 == 1
        then [{ gval := g, index := i, flag := 1, rating := d.rating }] else [] := by
  rw [List.filter_map]
  by_cases hg : (f d == g) = true
  · have hg' : f d = g := by simpa using hg
    have hpred : ((fun e : GenreEntry γ => (e.gval == g && e.index == i) && e.flag == 1) ∘
        (fun j => ({ gval := f d, index := j, flag := d.genres.getD j 0,
                     rating := d.rating } : GenreEntry γ))) =
        (fun j => (j == i) && (d.genres.getD j 0 == 1)) := by
      funext j
      simp [Function.comp, hg]
    rw [hpred, range_filter_beq 19 i _ hi]
    by_cases hfl : (d.genres.getD i 0 == 1) = true
    · have hfl' : d.genres.getD i 0 = 1 := by rwa [beq_iff_eq] at hfl
      have htrue : (f d == g && d.genres.getD i 0 == 1) = true := by
        rw [hg, hfl]
        rfl
      rw [if_pos hfl, if_pos htrue]
      simp only [List.map_cons, List.map_nil]
      rw [hg', hfl']
    · have hc : ¬ (f d == g && d.genres.getD i 0 == 1) = true := by
        simp only [Bool.and_eq_true]
        exact fun h => hfl h.2
      rw [if_neg hfl, if_neg hc]
      rfl
  · have hg0 : (f d == g) = false := by simpa using hg
    have hpred : ((fun e : GenreEntry γ => (e.gval == g && e.index == i) && e.flag == 1) ∘
        (fun j => ({ gval := f d, index := j, flag := d.genres.getD j 0,
                     rating := d.rating } : GenreEntry γ))) = (fun _ => false) := by
      funext j
      simp [Function.comp, hg0]
    rw [hpred]
    simp [hg0]

lemma flatMap_ite_singleton {α β : Type} (p : α → Bool) (x : α → β) (l : List α) :
    (l.flatMap (fun a => if p a then [x a] else [])) = (l.filter p).map x := by
  induction l with
  | nil => simp
  | cons a t ih =>
    by_cases h : p a = true <;> simp [List.filter_cons, h, ih]

/-- The entries of the matched stage that carry a given key `(g, i)` with
`i < 19` are exactly one entry per source document whose group value is `g`
and whose `i`-th genre flag is `1`. -/
lemma statsMatch_key_filter {γ : Type} [DecidableEq γ] (f : RUGDoc → γ)
    (docs : List RUGDoc) (g : γ) (i : Nat) (hi : i < 19) :
    ((statsMatch (statsProjectUnwind f 19 docs)).filter
        (fun e => e.gval == g && e.index == i))
      = ((docs.filter (fun d => f d == g && d.genres.getD i 0 == 1)).map
          (fun d => { gval := g, index := i, flag := 1, rating := d.rating })) := by
  induction docs with
  | nil => simp [statsMatch, statsProjectUnwind]
  | cons d t ih =>
    have hd := statsEntries_doc_filter f d g i hi
    simp only [statsMatch, statsProjectUnwind, List.flatMap_cons, List.filter_append,
      List.filter_filter] at ih ⊢
    rw [List.filter_cons]
    by_cases hP : (f d == g && d.genres.getD i 0 == 1) = true
    · rw [hd, if_pos hP, if_pos hP, ih]
      simp
    · rw [hd, if_neg hP, if_neg hP, ih]
      simp

/-- Filtering the image of a duplicate-free key list under a key-preserving
map for one key yields at most that key's image. -/
lemma keyed_filter_map {γ : Type} [DecidableEq γ] (F : γ × Nat → StatDoc γ)
    (hF : ∀ k, (F k).gval = k.1 ∧ (F k).genre_index = k.2)
    (g : γ) (i : Nat) :
    ∀ ks : List (γ × Nat), ks.Nodup →
      (ks.map F).filter (fun s => s.gval == g && s.genre_index == i)
        = if (g, i) ∈ ks then [F (g, i)] else [] := by
  intro ks hk
  induction ks with
  | nil => simp
  | cons a t ih =>
    rw [List.nodup_cons] at hk
    simp only [List.map_cons, List.filter_cons]
    by_cases hpa : ((F a).gval == g && (F a).genre_index == i) = true
    · have ha : a = (g, i) := by
        obtain ⟨h1, h2⟩ := hF a
        rw [Bool.and_eq_true, beq_iff_eq, beq_iff_eq, h1, h2] at hpa
        exact Prod.ext_iff.mpr hpa
      subst ha
      have ht : (t.map F).filter (fun s => s.gval == g && s.genre_index == i) = [] := by
        rw [List.filter_eq_nil_iff]
        intro s hs
        rw [List.mem_map] at hs
        obtain ⟨k, hkt, rfl⟩ := hs
        obtain ⟨h1, h2⟩ := hF k
        simp only [Bool.and_eq_true, beq_iff_eq, h1, h2, not_and]
        intro hg1 hg2
        have hk2 : k = (g, i) := Prod.ext_iff.mpr ⟨hg1, hg2⟩
        exact hk.1 (hk2 ▸ hkt)
      rw [if_pos hpa, ht, if_pos (List.mem_cons_self _ _)]
    · have hqa : ¬ (g, i) = a := by
        intro he
        subst he
        obtain ⟨h1, h2⟩ := hF (g, i)
        apply hpa
        rw [Bool.and_eq_true, beq_iff_eq, beq_iff_eq]
        exact ⟨h1, h2⟩
      rw [if_neg hpa, ih hk.2]
      by_cases hmem : (g, i) ∈ t
      · rw [if_pos hmem, if_pos (List.mem_cons_of_mem _ hmem)]
      · rw [if_neg hmem, if_neg (by
          rw [List.mem_cons]
          exact fun h => h.elim hqa hmem)]

/-- The key `(g, i)` appears among the grouped keys exactly when some
source document has group value `g` and `i`-th genre flag `1`. -/
lemma mem_statsKeys_iff {γ : Type} [DecidableEq γ] (f : RUGDoc → γ)
    (docs : List RUGDoc) (g : γ) (i : Nat) (hi : i < 19) :
    ((g, i) ∈ ((statsMatch (statsProjectUnwind f 19 docs)).map
        (fun e => (e.gval, e.index))).dedup)
      ↔ docs.filter (fun d => f d == g && d.genres.getD i 0 == 1) ≠ [] := by
  rw [List.mem_dedup, List.mem_map]
  constructor
  · rintro ⟨e, he, hke⟩ hnil
    have hmem : e ∈ (statsMatch (statsProjectUnwind f 19 docs)).filter
        (fun x => x.gval == g && x.index == i) := by
      rw [List.mem_filter]
      refine ⟨he, ?_⟩
      have h1 : e.gval = g := congrArg Prod.fst hke
      have h2 : e.index = i := congrArg Prod.snd hke
      rw [Bool.and_eq_true, beq_iff_eq, beq_iff_eq]
      exact ⟨h1, h2⟩
    rw [statsMatch_key_filter f docs g i hi, hnil] at hmem
    simp at hmem
  · intro hne
    obtain ⟨d, hd⟩ := List.exists_mem_of_ne_nil _ hne
    have hmem : ({ gval := g, index := i, flag := 1, rating := d.rating } : GenreEntry γ)
        ∈ (statsMatch (statsProjectUnwind f 19 docs)).filter
            (fun x => x.gval == g && x.index == i) := by
      rw [statsMatch_key_filter f docs g i hi, List.mem_map]
      exact ⟨d, hd, rfl⟩
    exact ⟨_, (List.mem_filter.mp hmem).1, rfl⟩

/- ------------------------------------------------------------------ -/
/- Theorem for claim C1. -/

/-- Claim C1: on any source collection of joined rating documents, the
statistics pipeline of `build_and_insert_stats` produces exactly one
document per pair of a group value `g` and a genre index `i < 19` for
which some source document has group value `g` and `i`-th genre flag `1`;
that document's `count` is the number of source documents with that group
value and that flag equal to `1`, and its `avg_rating` is the arithmetic
mean of those documents' ratings rounded to 3 decimal places.  A document
contributes only to the genre indices whose flag is `1`, and once per
such genre. -/
theorem build_stats_spec {γ : Type} [DecidableEq γ] (f : RUGDoc → γ)
    (docs : List RUGDoc) (g : γ) (i : Nat) (hi : i < 19) :
    (statsPipeline f 19 docs).filter (fun s => s.gval == g && s.genre_index == i)
      = if (docs.filter (fun d => f d == g && d.genres.getD i 0 == 1)).isEmpty
        then []
        else
          [{ gval := g, genre_index := i,
             avg_rating := round3
               (((docs.filter (fun d => f d == g && d.genres.getD i 0 == 1)).map
                   (fun d => (d.rating : ℚ))).sum /
                ((docs.filter (fun d => f d == g && d.genres.getD i 0 == 1)).length : ℚ)),
             count := (docs.filter (fun d => f d == g && d.genres.getD i 0 == 1)).length }] := by
  rw [statsPipeline_eq_map_statOf,
      keyed_filter_map _ (fun k => ⟨rfl, rfl⟩) g i _ (List.nodup_dedup _)]
  by_cases hmem : (g, i) ∈ ((statsMatch (statsProjectUnwind f 19 docs)).map
      (fun e => (e.gval, e.index))).dedup
  · have hne := (mem_statsKeys_iff f docs g i hi).mp hmem
    have hstat : statOf (statsMatch (statsProjectUnwind f 19 docs)) (g, i)
        = { gval := g, genre_index := i,
            avg_rating := round3
              (((docs.filter (fun d => f d == g && d.genres.getD i 0 == 1)).map
                  (fun d => (d.rating : ℚ))).sum /
               ((docs.filter (fun d => f d == g && d.genres.getD i 0 == 1)).length : ℚ)),
            count := (docs.filter (fun d => f d == g && d.genres.getD i 0 == 1)).length } := by
      simp only [statOf, statsMatch_key_filter f docs g i hi, List.map_map,
        List.length_map, Function.comp]
      rfl
    rw [if_pos hmem, hstat,
        if_neg (fun h => hne (List.isEmpty_iff.mp h))]
  · have hnil : docs.filter (fun d => f d == g && d.genres.getD i 0 == 1) = [] := by
      by_contra hne
      exact hmem ((mem_statsKeys_iff f docs g i hi).mpr hne)
    rw [if_neg hmem, if_pos (List.isEmpty_iff.mpr hnil)]

/-- Witness for C1 at two concrete documents, group value 25 and genre
index 1 (both documents count: `count = 2`, `avg_rating = 4.5`). -/
theorem build_stats_spec_witness :
    (statsPipeline RUGDoc.age 19 [wdoc0, wdoc1]).filter
        (fun s => s.gval == 25 && s.genre_index == 1)
      = if ([wdoc0, wdoc1].filter
              (fun d => RUGDoc.age d == 25 && d.genres.getD 1 0 == 1)).isEmpty
        then []
        else
          [{ gval := 25, genre_index := 1,
             avg_rating := round3
               ((([wdoc0, wdoc1].filter
                    (fun d => RUGDoc.age d == 25 && d.genres.getD 1 0 == 1)).map
                   (fun d => (d.rating : ℚ))).sum /
                (([wdoc0, wdoc1].filter
                    (fun d => RUGDoc.age d == 25 && d.genres.getD 1 0 == 1)).length : ℚ)),
             count := ([wdoc0, wdoc1].filter
               (fun d => RUGDoc.age d == 25 && d.genres.getD 1 0 == 1)).length }] :=
  build_stats_spec RUGDoc.age [wdoc0, wdoc1] 25 1 (by norm_num)

end ML100K

namespace ML100K

/- ------------------------------------------------------------------ -/
/- Theorem for claim C2. -/

/-- Claim C2: the join pipeline of `populate_user_movie_info_if_needed`
produces exactly the documents that pair a rating `(user_id, movie_id,
rating)` with the age, gender and occupation of a user whose `user_id`
matches it and with the 19 genre flags `genre_0` … `genre_18` of a movie
whose `movie_id` matches it; a rating with no matching user or no
matching movie yields no output document. -/
theorem joinPipeline_spec (ratings : List Rating) (users : List User)
    (movies : List Movie) (d : RUGDoc) :
    d ∈ joinPipeline ratings users movies ↔
      ∃ r ∈ ratings, ∃ u ∈ users, ∃ m ∈ movies,
        u.user_id = r.user_id ∧ m.movie_id = r.movie_id ∧
        d = { user_id := r.user_id, movie_id := r.movie_id, rating := r.rating,
              age := u.age, gender := u.gender, occupation := u.occupation,
              genres := (List.range 19).map (fun i => m.genres.getD i 0) } := by
  simp only [joinPipeline, projectJoined, unwindMovieInfo, lookupMovies,
    unwindUserInfo, lookupUsers, List.mem_map, List.mem_flatMap,
    List.mem_filter, beq_iff_eq]
  constructor
  · rintro ⟨t, ⟨w, ⟨pu, ⟨a1, ⟨r, hr, rfl⟩, u, hu, rfl⟩, rfl⟩, m, hm, rfl⟩, rfl⟩
    refine ⟨r, hr, u, ?_, m, ?_, ?_, ?_, rfl⟩
    · exact (List.mem_filter.mp hu).1
    · exact (List.mem_filter.mp hm).1
    · simpa using (List.mem_filter.mp hu).2
    · simpa using (List.mem_filter.mp hm).2
  · rintro ⟨r, hr, u, hu, m, hm, h1, h2, rfl⟩
    refine ⟨(r, u, m),
      ⟨(r, u, movies.filter (fun x => x.movie_id == r.movie_id)),
        ⟨(r, u),
          ⟨(r, users.filter (fun x => x.user_id == r.user_id)),
            ⟨r, hr, rfl⟩, u, ?_, rfl⟩, rfl⟩,
        m, ?_, rfl⟩, rfl⟩
    · exact List.mem_filter.mpr ⟨hu, by simp [h1]⟩
    · exact List.mem_filter.mpr ⟨hm, by simp [h2]⟩

/- ------------------------------------------------------------------ -/
/- Theorem for claim C4. -/

lemma build_and_insert_stats_isOk {γ : Type} [DecidableEq γ] (oracle : DbCall → Bool)
    (call : DbCall) (step : Step) (group_field target_name : String)
    (f : RUGDoc → γ) (genre_count : Nat) (source : List RUGDoc)
    (target : List (StatDoc γ)) :
    ∃ r, build_and_insert_stats oracle call step group_field target_name
      f genre_count source target = Except.ok r := by
  rw [build_and_insert_stats]
  split
  · exact ⟨_, rfl⟩
  · split
    · exact ⟨_, rfl⟩
    · exact ⟨_, rfl⟩

/-- Claim C4: no exception of a database insert or aggregation escapes
`populate_data_if_needed`, `populate_user_movie_info_if_needed` or the
statistics builds: whatever calls the oracle makes raise, each function
returns normally; and in `populate_data_if_needed` a failed insert into
one collection does not prevent the remaining loads from being attempted,
and the final line printed is still `"Data population complete."`. -/
theorem no_exception_spec (oracle : DbCall → Bool) (files : Files) (db : DB) :
    (∃ r, populate_data_if_needed oracle files db = Except.ok r) ∧
    (∃ r, populate_user_movie_info_if_needed oracle db = Except.ok r) ∧
    (∃ r, populate_statistics_if_needed oracle db = Except.ok r) ∧
    (¬ (db.users.length > 0 ∧ db.movies.length > 0 ∧ db.ratings.length > 0) →
      ∃ db' eff, populate_data_if_needed oracle files db = Except.ok (db', eff) ∧
        eff.logs.getLast? = some "Data population complete." ∧
        db'.users = (if oracle DbCall.insUsers then db.users
          else db.users ++ files.u_user) ∧
        db'.movies = (if oracle DbCall.insMovies then db.movies
          else db.movies ++ files.u_item) ∧
        db'.ratings = (if oracle DbCall.insRatings then db.ratings
          else db.ratings ++ files.u_data)) := by
  refine ⟨?_, ?_, ?_, ?_⟩
  · rw [populate_data_if_needed]
    split
    · exact ⟨_, rfl⟩
    · exact ⟨_, rfl⟩
  · rw [populate_user_movie_info_if_needed]
    split
    · exact ⟨_, rfl⟩
    · split
      · exact ⟨_, rfl⟩
      · exact ⟨_, rfl⟩
  · obtain ⟨⟨a1, e1⟩, h1⟩ := build_and_insert_stats_isOk oracle DbCall.aggAge
      Step.statsAge "age" "age_genre_rating_stats" RUGDoc.age 19 db.rug db.ageStats
    obtain ⟨⟨a2, e2⟩, h2⟩ := build_and_insert_stats_isOk oracle DbCall.aggGender
      Step.statsGender "gender" "gender_genre_rating_stats" RUGDoc.gender 19
      db.rug db.genderStats
    obtain ⟨⟨a3, e3⟩, h3⟩ := build_and_insert_stats_isOk oracle DbCall.aggOcc
      Step.statsOcc "occupation" "occupation_genre_rating_stats" RUGDoc.occupation 19
      db.rug db.occStats
    refine ⟨({ db with ageStats := a1, genderStats := a2, occStats := a3 },
      e1 ++ e2 ++ e3), ?_⟩
    rw [populate_statistics_if_needed, h1, h2, h3]
    rfl
  · intro hg
    rw [populate_data_if_needed, if_neg hg]
    refine ⟨_, _, rfl, ?_, ?_, ?_, ?_⟩
    · simp [List.getLast?_append]
    · cases ho : oracle DbCall.insUsers <;> simp [insert_many, ho]
    · cases ho : oracle DbCall.insMovies <;> simp [insert_many, ho]
    · cases ho : oracle DbCall.insRatings <;> simp [insert_many, ho]

/-- Witness for C4 at the no-failure oracle, concrete files and the empty
database. -/
theorem no_exception_spec_witness :
    (∃ r, populate_data_if_needed noFail wfiles emptyDB = Except.ok r) ∧
    (∃ r, populate_user_movie_info_if_needed noFail emptyDB = Except.ok r) ∧
    (∃ r, populate_statistics_if_needed noFail emptyDB = Except.ok r) ∧
    (∃ db' eff, populate_data_if_needed noFail wfiles emptyDB = Except.ok (db', eff) ∧
      eff.logs.getLast? = some "Data population complete." ∧
      db'.users = (if noFail DbCall.insUsers then emptyDB.users
        else emptyDB.users ++ wfiles.u_user) ∧
      db'.movies = (if noFail DbCall.insMovies then emptyDB.movies
        else emptyDB.movies ++ wfiles.u_item) ∧
      db'.ratings = (if noFail DbCall.insRatings then emptyDB.ratings
        else emptyDB.ratings ++ wfiles.u_data)) := by
  obtain ⟨h1, h2, h3, h4⟩ := no_exception_spec noFail wfiles emptyDB
  exact ⟨h1, h2, h3, h4 (by simp [emptyDB])⟩

/- ------------------------------------------------------------------ -/
/- Theorem for claim C3. -/

lemma except_bind_ok {ε α β : Type} (a : α) (f : α → Except ε β) :
    ((Except.ok a : Except ε α) >>= f) = f a := rfl

/-- Claim C3: running the full pipeline again immediately after a
successful run performs no database write: when every collection already
holds at least one document, each populate step returns via its
emptiness check without writing, and the run leaves every collection
unchanged. -/
theorem second_run_no_writes (oracle : DbCall → Bool) (files : Files) (db : DB)
    (hu : db.users ≠ []) (hm : db.movies ≠ []) (hr : db.ratings ≠ [])
    (hj : db.rug ≠ []) (ha : db.ageStats ≠ []) (hge : db.genderStats ≠ [])
    (hoc : db.occStats ≠ []) :
    ∃ eff out, mainRun oracle files db = Except.ok (db, eff, out) ∧
      eff.writes = [] := by
  have h1 : populate_data_if_needed oracle files db
      = Except.ok (db,
        { writes := []
          logs := ["Data already exists in MongoDB collections. Skipping data load."]
          steps := [Step.popData] }) := by
    rw [populate_data_if_needed, if_pos]
    exact ⟨List.length_pos.mpr hu, List.length_pos.mpr hm, List.length_pos.mpr hr⟩
  have h2 : populate_user_movie_info_if_needed oracle db
      = Except.ok (db,
        { writes := []
          logs := ["ratings_userinfo_genres already has data. Skipping join step."]
          steps := [Step.popJoin] }) := by
    rw [populate_user_movie_info_if_needed, if_pos (List.length_pos.mpr hj)]
  have hb1 : build_and_insert_stats oracle DbCall.aggAge Step.statsAge "age"
      "age_genre_rating_stats" RUGDoc.age 19 db.rug db.ageStats
      = Except.ok (db.ageStats,
        { writes := []
          logs := ["age_genre_rating_stats already has data. Skipping stats aggregation."]
          steps := [Step.statsAge] }) := by
    rw [build_and_insert_stats, if_pos (List.length_pos.mpr ha)]
    rfl
  have hb2 : build_and_insert_stats oracle DbCall.aggGender Step.statsGender "gender"
      "gender_genre_rating_stats" RUGDoc.gender 19 db.rug db.genderStats
      = Except.ok (db.genderStats,
        { writes := []
          logs := ["gender_genre_rating_stats already has data. Skipping stats aggregation."]
          steps := [Step.statsGender] }) := by
    rw [build_and_insert_stats, if_pos (List.length_pos.mpr hge)]
    rfl
  have hb3 : build_and_insert_stats oracle DbCall.aggOcc Step.statsOcc "occupation"
      "occupation_genre_rating_stats" RUGDoc.occupation 19 db.rug db.occStats
      = Except.ok (db.occStats,
        { writes := []
          logs := ["occupation_genre_rating_stats already has data. Skipping stats aggregation."]
          steps := [Step.statsOcc] }) := by
    rw [build_and_insert_stats, if_pos (List.length_pos.mpr hoc)]
    rfl
  have h3 : populate_statistics_if_needed oracle db
      = Except.ok (db,
        ({ writes := []
           logs := ["age_genre_rating_stats already has data. Skipping stats aggregation."]
           steps := [Step.statsAge] } : Eff) ++
        ({ writes := []
           logs := ["gender_genre_rating_stats already has data. Skipping stats aggregation."]
           steps := [Step.statsGender] } : Eff) ++
        ({ writes := []
           logs := ["occupation_genre_rating_stats already has data. Skipping stats aggregation."]
           steps := [Step.statsOcc] } : Eff)) := by
    simp only [populate_statistics_if_needed, hb1, hb2, hb3, except_bind_ok]
  have hm : mainRun oracle files db
      = Except.ok (db,
          (⟨[], ["Data already exists in MongoDB collections. Skipping data load."],
             [Step.popData]⟩ : Eff) ++
          (⟨[], ["ratings_userinfo_genres already has data. Skipping join step."],
             [Step.popJoin]⟩ : Eff) ++
          ((⟨[], ["age_genre_rating_stats already has data. Skipping stats aggregation."],
              [Step.statsAge]⟩ : Eff) ++
           (⟨[], ["gender_genre_rating_stats already has data. Skipping stats aggregation."],
              [Step.statsGender]⟩ : Eff) ++
           (⟨[], ["occupation_genre_rating_stats already has data. Skipping stats aggregation."],
              [Step.statsOcc]⟩ : Eff)) ++
          (⟨[], ["All tasks completed successfully."], [Step.plotCharts]⟩ : Eff),
          plot_statistics db.ageStats db.genderStats db.occStats genreLabels) := by
    simp only [mainRun, h1, h2, h3, except_bind_ok]
    rfl
  exact ⟨_, _, hm, rfl⟩

/-- Witness for C3 at the no-failure oracle and a database in which every
collection has one document. -/
theorem second_run_no_writes_witness :
    ∃ eff out, mainRun noFail wfiles wdb = Except.ok (wdb, eff, out) ∧
      eff.writes = [] :=
  second_run_no_writes noFail wfiles wdb (by simp [wdb]) (by simp [wdb])
    (by simp [wdb]) (by simp [wdb]) (by simp [wdb]) (by simp [wdb]) (by simp [wdb])

/- ------------------------------------------------------------------ -/
/- Theorem for claim C6. -/

lemma eff_steps_append (a b : Eff) : (a ++ b).steps = a.steps ++ b.steps := rfl

lemma populate_data_result (oracle : DbCall → Bool) (files : Files) (db : DB) :
    ∃ r : DB × Eff, populate_data_if_needed oracle files db = Except.ok r ∧
      r.2.steps = [Step.popData] := by
  rw [populate_data_if_needed]
  split
  · exact ⟨_, rfl, rfl⟩
  · exact ⟨_, rfl, rfl⟩

lemma populate_join_result (oracle : DbCall → Bool) (db : DB) :
    ∃ r : DB × Eff, populate_user_movie_info_if_needed oracle db = Except.ok r ∧
      r.2.steps = [Step.popJoin] := by
  rw [populate_user_movie_info_if_needed]
  split
  · exact ⟨_, rfl, rfl⟩
  · split
    · exact ⟨_, rfl, rfl⟩
    · exact ⟨_, rfl, rfl⟩

lemma build_stats_result {γ : Type} [DecidableEq γ] (oracle : DbCall → Bool)
    (call : DbCall) (step : Step) (group_field target_name : String)
    (f : RUGDoc → γ) (genre_count : Nat) (source : List RUGDoc)
    (target : List (StatDoc γ)) :
    ∃ r : List (StatDoc γ) × Eff,
      build_and_insert_stats oracle call step group_field target_name f genre_count
        source target = Except.ok r ∧ r.2.steps = [step] := by
  rw [build_and_insert_stats]
  split
  · exact ⟨_, rfl, rfl⟩
  · split
    · exact ⟨_, rfl, rfl⟩
    · exact ⟨_, rfl, rfl⟩

/-- Claim C6: the main program executes its steps exactly once each, in
the fixed order raw data population, join, age statistics, gender
statistics, occupation statistics, chart rendering; each step consumes
the database state produced by its predecessor, and the recorded step
trace of a run is exactly this sequence. -/
theorem main_order_spec (oracle : DbCall → Bool) (files : Files) (db : DB) :
    ∃ (db1 db2 db3 : DB) (e1 e2 e3 : Eff) (out : PlotOut),
      populate_data_if_needed oracle files db = Except.ok (db1, e1) ∧
      populate_user_movie_info_if_needed oracle db1 = Except.ok (db2, e2) ∧
      populate_statistics_if_needed oracle db2 = Except.ok (db3, e3) ∧
      plotPhase db3 = (db3, out) ∧
      e1.steps = [Step.popData] ∧
      e2.steps = [Step.popJoin] ∧
      e3.steps = [Step.statsAge, Step.statsGender, Step.statsOcc] ∧
      mainRun oracle files db
        = Except.ok (db3,
            e1 ++ e2 ++ e3 ++
              (⟨[], ["All tasks completed successfully."], [Step.plotCharts]⟩ : Eff),
            out) ∧
      (e1 ++ e2 ++ e3 ++
          (⟨[], ["All tasks completed successfully."], [Step.plotCharts]⟩ : Eff)).steps
        = [Step.popData, Step.popJoin, Step.statsAge, Step.statsGender,
           Step.statsOcc, Step.plotCharts] := by
  obtain ⟨⟨db1, e1⟩, h1, hs1⟩ := populate_data_result oracle files db
  obtain ⟨⟨db2, e2⟩, h2, hs2⟩ := populate_join_result oracle db1
  obtain ⟨⟨a1, f1⟩, hg1, ht1⟩ := build_stats_result oracle DbCall.aggAge Step.statsAge
    "age" "age_genre_rating_stats" RUGDoc.age 19 db2.rug db2.ageStats
  obtain ⟨⟨a2, f2⟩, hg2, ht2⟩ := build_stats_result oracle DbCall.aggGender
    Step.statsGender "gender" "gender_genre_rating_stats" RUGDoc.gender 19
    db2.rug db2.genderStats
  obtain ⟨⟨a3, f3⟩, hg3, ht3⟩ := build_stats_result oracle DbCall.aggOcc Step.statsOcc
    "occupation" "occupation_genre_rating_stats" RUGDoc.occupation 19
    db2.rug db2.occStats
  have h3 : populate_statistics_if_needed oracle db2
      = Except.ok ({ db2 with ageStats := a1, genderStats := a2, occStats := a3 },
          f1 ++ f2 ++ f3) := by
    simp only [populate_statistics_if_needed, hg1, hg2, hg3, except_bind_ok]
  have hsteps3 : (f1 ++ f2 ++ f3).steps
      = [Step.statsAge, Step.statsGender, Step.statsOcc] := by
    rw [eff_steps_append, eff_steps_append, ht1, ht2, ht3]
    rfl
  refine ⟨db1, db2, _, e1, e2, f1 ++ f2 ++ f3, _, h1, h2, h3, rfl, hs1, hs2,
    hsteps3, ?_, ?_⟩
  · simp only [mainRun, h1, h2, h3, except_bind_ok]
    rfl
  · rw [eff_steps_append, eff_steps_append, eff_steps_append, hs1, hs2, hsteps3]
    rfl

/- ------------------------------------------------------------------ -/
/- Theorem for claim C5. -/

/-- Claim C5: `populate_data_if_needed` loads exactly the three flat
files `ml-100k/u.user` (pipe-separated, columns `user_id`, `age`,
`gender`, `occupation`, `zip_code`), `ml-100k/u.item` (pipe-separated,
latin-1, keeping only the first 24 columns: five leading columns plus
`genre_0` … `genre_18`) and `ml-100k/u.data` (tab-separated, columns
`user_id`, `movie_id`, `rating`, `timestamp`), and inserts one document
per row into the `users`, `movies` and `ratings` collections
respectively. -/
theorem load_files_spec (files : Files) (db : DB) (rows : List (List String))
    (hg : ¬ (db.users.length > 0 ∧ db.movies.length > 0 ∧ db.ratings.length > 0)) :
    users_csv.path = "ml-100k/u.user" ∧ users_csv.sep = "|" ∧
    users_csv.names = ["user_id", "age", "gender", "occupation", "zip_code"] ∧
    ratings_csv.path = "ml-100k/u.data" ∧ ratings_csv.sep = "\t" ∧
    ratings_csv.names = ["user_id", "movie_id", "rating", "timestamp"] ∧
    movies_csv.path = "ml-100k/u.item" ∧ movies_csv.sep = "|" ∧
    movies_csv.encoding = some "latin-1" ∧
    movies_csv.names =
      ["movie_id", "title", "release_date", "video_release_date", "IMDb_URL",
       "genre_0", "genre_1", "genre_2", "genre_3", "genre_4", "genre_5",
       "genre_6", "genre_7", "genre_8", "genre_9", "genre_10", "genre_11",
       "genre_12", "genre_13", "genre_14", "genre_15", "genre_16", "genre_17",
       "genre_18"] ∧
    read_csv movies_csv rows
      = rows.map (fun r => movies_csv.names.zip (r.take 24)) ∧
    read_csv users_csv rows = rows.map (fun r => users_csv.names.zip r) ∧
    read_csv ratings_csv rows = rows.map (fun r => ratings_csv.names.zip r) ∧
    populate_data_if_needed noFail files db
      = Except.ok ({ db with
            users := db.users ++ files.u_user
            movies := db.movies ++ files.u_item
            ratings := db.ratings ++ files.u_data },
          ⟨[DbCall.insUsers, DbCall.insMovies, DbCall.insRatings],
           ["Data population complete."], [Step.popData]⟩) ∧
    (db.users ++ files.u_user).length = db.users.length + files.u_user.length ∧
    (db.movies ++ files.u_item).length = db.movies.length + files.u_item.length ∧
    (db.ratings ++ files.u_data).length = db.ratings.length + files.u_data.length := by
  refine ⟨rfl, rfl, rfl, rfl, rfl, rfl, rfl, rfl, rfl, by decide, rfl, rfl, rfl, ?_,
    List.length_append _ _, List.length_append _ _, List.length_append _ _⟩
  rw [populate_data_if_needed, if_neg hg]
  rfl

/-- Witness for C5 at concrete files and the empty database. -/
theorem load_files_spec_witness :
    populate_data_if_needed noFail wfiles emptyDB
      = Except.ok ({ emptyDB with
            users := emptyDB.users ++ wfiles.u_user
            movies := emptyDB.movies ++ wfiles.u_item
            ratings := emptyDB.ratings ++ wfiles.u_data },
          ⟨[DbCall.insUsers, DbCall.insMovies, DbCall.insRatings],
           ["Data population complete."], [Step.popData]⟩) ∧
    (emptyDB.users ++ wfiles.u_user).length
      = emptyDB.users.length + wfiles.u_user.length := by
  obtain ⟨-, -, -, -, -, -, -, -, -, -, -, -, -, hp, hl, -, -⟩ :=
    load_files_spec wfiles emptyDB [] (by simp [emptyDB])
  exact ⟨hp, hl⟩

/- ------------------------------------------------------------------ -/
/- Theorem for claim C8. -/

/-- Claim C8: when at least one but not all of the three raw collections
already contain documents, `populate_data_if_needed` does not skip: it
inserts every row of all three files again, including into the
collections that are already non-empty, so a partially populated store
receives duplicate documents. -/
theorem partial_populate_spec (files : Files) (db : DB)
    (hsome : db.users ≠ [] ∨ db.movies ≠ [] ∨ db.ratings ≠ [])
    (hnone : db.users = [] ∨ db.movies = [] ∨ db.ratings = []) :
    populate_data_if_needed noFail files db
      = Except.ok ({ db with
            users := db.users ++ files.u_user
            movies := db.movies ++ files.u_item
            ratings := db.ratings ++ files.u_data },
          ⟨[DbCall.insUsers, DbCall.insMovies, DbCall.insRatings],
           ["Data population complete."], [Step.popData]⟩) ∧
    (db.users ++ files.u_user).length = db.users.length + files.u_user.length ∧
    (db.movies ++ files.u_item).length = db.movies.length + files.u_item.length ∧
    (db.ratings ++ files.u_data).length = db.ratings.length + files.u_data.length := by
  have hg : ¬ (db.users.length > 0 ∧ db.movies.length > 0 ∧ db.ratings.length > 0) := by
    rcases hnone with h | h | h <;> simp [h]
  refine ⟨?_, List.length_append _ _, List.length_append _ _, List.length_append _ _⟩
  rw [populate_data_if_needed, if_neg hg]
  rfl

/-- Witness for C8 at a database whose `users` collection is populated
while `movies` and `ratings` are empty: the users file is inserted again
on top of the existing user documents. -/
theorem partial_populate_spec_witness :
    populate_data_if_needed noFail wfiles partialDB
      = Except.ok ({ partialDB with
            users := partialDB.users ++ wfiles.u_user
            movies := partialDB.movies ++ wfiles.u_item
            ratings := partialDB.ratings ++ wfiles.u_data },
          ⟨[DbCall.insUsers, DbCall.insMovies, DbCall.insRatings],
           ["Data population complete."], [Step.popData]⟩) := by
  obtain ⟨h, -, -, -⟩ := partial_populate_spec wfiles partialDB
    (Or.inl (by simp [partialDB, emptyDB]))
    (Or.inr (Or.inl (by simp [partialDB, emptyDB])))
  exact h

/- ------------------------------------------------------------------ -/
/- Helper lemmas for claims C7 and C10. -/

lemma foldl_skip_append {α β : Type} (c : α → Bool) (q : α → β) :
    ∀ (l : List α) (acc : List β),
      l.foldl (fun acc v => if c v then acc else acc ++ [q v]) acc
        = acc ++ (l.filter (fun v => !c v)).map q := by
  intro l
  induction l with
  | nil => intro acc; simp
  | cons a t ih =>
    intro acc
    rw [List.foldl_cons, List.filter_cons]
    by_cases h : c a = true
    · rw [if_pos h, ih]
      simp [h]
    · rw [if_neg h, ih]
      simp [h, List.append_assoc]

/-- The figure rows produced by the chart loop: one row of two figures
per group value whose subset of the DataFrame is non-empty, in order. -/
lemma make_bokeh_charts_plots (df : List StatRow) (gf : String)
    (gvs gls : List String) (html : String) :
    (make_bokeh_charts df gf gvs gls html).1
      = (gvs.filter (fun v => !(df.filter (fun r => r.group == v)).isEmpty)).map
          (fun v => [avgPlot gf v (df.filter (fun r => r.group == v)) gls,
                     countPlot gf v (df.filter (fun r => r.group == v)) gls]) := by
  simp only [make_bokeh_charts]
  rw [foldl_skip_append]
  simp

/-- The output file of the chart loop: opened exactly when some group
value has a non-empty subset. -/
lemma make_bokeh_charts_file (df : List StatRow) (gf : String)
    (gvs gls : List String) (html : String) :
    (make_bokeh_charts df gf gvs gls html).2
      = if (gvs.filter (fun v => !(df.filter (fun r => r.group == v)).isEmpty)).isEmpty
        then none else some html := by
  simp only [make_bokeh_charts]
  rw [foldl_skip_append]
  simp

/- ------------------------------------------------------------------ -/
/- Theorem for claim C7. -/

/-- Claim C7: for every group value with at least one statistics row, the
chart phase produces a row of two vertical-bar figures over the genre
labels — one plotting `avg_rating` per genre and one plotting `count` per
genre — and opens one HTML grid file; per category the files are
`age_group_charts.html`, `gender_charts.html` and
`occupation_charts.html`, and for the age category the numeric ages are
mapped to decade-range groups before charting. -/
theorem charts_spec (age_stats : List (StatDoc Int))
    (gender_stats occupation_stats : List (StatDoc String))
    (df : List StatRow) (gf : String) (gvs gls : List String) (html : String)
    (v : String) (hv : v ∈ gvs)
    (hne : df.filter (fun r => r.group == v) ≠ []) :
    ([avgPlot gf v (df.filter (fun r => r.group == v)) gls,
      countPlot gf v (df.filter (fun r => r.group == v)) gls]
        ∈ (make_bokeh_charts df gf gvs gls html).1) ∧
    (avgPlot gf v (df.filter (fun r => r.group == v)) gls).x_range = gls ∧
    (countPlot gf v (df.filter (fun r => r.group == v)) gls).x_range = gls ∧
    (avgPlot gf v (df.filter (fun r => r.group == v)) gls).bars
      = (df.filter (fun r => r.group == v)).map
          (fun r => (gls.getD r.genre_index "", r.avg_rating)) ∧
    (countPlot gf v (df.filter (fun r => r.group == v)) gls).bars
      = (df.filter (fun r => r.group == v)).map
          (fun r => (gls.getD r.genre_index "", (r.count : ℚ))) ∧
    (make_bokeh_charts df gf gvs gls html).2 = some html ∧
    (age_stats ≠ [] →
      (plot_statistics age_stats gender_stats occupation_stats gls).age
        = some (make_bokeh_charts
            (age_stats.map (fun s =>
              ({ group := age_to_group s.gval, genre_index := s.genre_index,
                 avg_rating := s.avg_rating, count := s.count } : StatRow)))
            "group"
            (sortedUnique ((age_stats.map (fun s =>
              ({ group := age_to_group s.gval, genre_index := s.genre_index,
                 avg_rating := s.avg_rating, count := s.count } : StatRow))).map
                (fun r => r.group)))
            gls "age_group_charts.html")) ∧
    (gender_stats ≠ [] →
      (plot_statistics age_stats gender_stats occupation_stats gls).gender
        = some (make_bokeh_charts
            (gender_stats.map (fun s =>
              ({ group := s.gval, genre_index := s.genre_index,
                 avg_rating := s.avg_rating, count := s.count } : StatRow)))
            "group"
            (sortedUnique ((gender_stats.map (fun s =>
              ({ group := s.gval, genre_index := s.genre_index,
                 avg_rating := s.avg_rating, count := s.count } : StatRow))).map
                (fun r => r.group)))
            gls "gender_charts.html")) ∧
    (occupation_stats ≠ [] →
      (plot_statistics age_stats gender_stats occupation_stats gls).occupation
        = some (make_bokeh_charts
            (occupation_stats.map (fun s =>
              ({ group := s.gval, genre_index := s.genre_index,
                 avg_rating := s.avg_rating, count := s.count } : StatRow)))
            "group"
            (sortedUnique ((occupation_stats.map (fun s =>
              ({ group := s.gval, genre_index := s.genre_index,
                 avg_rating := s.avg_rating, count := s.count } : StatRow))).map
                (fun r => r.group)))
            gls "occupation_charts.html")) := by
  have hmemf : v ∈ gvs.filter (fun v => !(df.filter (fun r => r.group == v)).isEmpty) := by
    refine List.mem_filter.mpr ⟨hv, ?_⟩
    simp [List.isEmpty_iff, hne]
  refine ⟨?_, rfl, rfl, rfl, rfl, ?_, ?_, ?_, ?_⟩
  · rw [make_bokeh_charts_plots]
    exact List.mem_map.mpr ⟨v, hmemf, rfl⟩
  · rw [make_bokeh_charts_file,
      if_neg (fun hh => List.ne_nil_of_mem hmemf (List.isEmpty_iff.mp hh))]
  · intro h
    rw [plot_statistics, if_neg (fun hh => h (List.isEmpty_iff.mp hh))]
  · intro h
    rw [plot_statistics, if_neg (fun hh => h (List.isEmpty_iff.mp hh))]
  · intro h
    rw [plot_statistics, if_neg (fun hh => h (List.isEmpty_iff.mp hh))]

/-- Witness for C7 at one concrete DataFrame row and group value. -/
theorem charts_spec_witness :
    ([avgPlot "group" "20-29"
        (([wrow] : List StatRow).filter (fun r => r.group == "20-29")) genreLabels,
      countPlot "group" "20-29"
        (([wrow] : List StatRow).filter (fun r => r.group == "20-29")) genreLabels]
        ∈ (make_bokeh_charts [wrow] "group" ["20-29"] genreLabels
            "age_group_charts.html").1) ∧
    (make_bokeh_charts [wrow] "group" ["20-29"] genreLabels
        "age_group_charts.html").2 = some "age_group_charts.html" := by
  obtain ⟨h1, -, -, -, -, h6, -, -, -⟩ :=
    charts_spec [{ gval := 25, genre_index := 1, avg_rating := 4, count := 2 }]
      [{ gval := "M", genre_index := 1, avg_rating := 4, count := 2 }]
      [{ gval := "student", genre_index := 1, avg_rating := 4, count := 2 }]
      [wrow] "group" ["20-29"] genreLabels "age_group_charts.html" "20-29"
      (by simp) (by simp [wrow])
  exact ⟨h1, h6⟩

/- ------------------------------------------------------------------ -/
/- Theorem for claim C10. -/

/-- Claim C10: the chart phase never writes to the database, and it opens
no output file for a category whose statistics collection is empty or in
which no group value has a matching row: `make_bokeh_charts` opens its
file exactly when at least one group value's subset is non-empty. -/
theorem plot_reads_only_spec :
    (∀ db : DB, (plotPhase db).1 = db) ∧
    (∀ (df : List StatRow) (gf : String) (gvs gls : List String) (html : String),
      ((make_bokeh_charts df gf gvs gls html).2 = none ↔
        ∀ v ∈ gvs, df.filter (fun r => r.group == v) = [])) ∧
    (∀ (a : List (StatDoc Int)) (g o : List (StatDoc String)) (gls : List String),
      (a = [] → (plot_statistics a g o gls).age = none) ∧
      (g = [] → (plot_statistics a g o gls).gender = none) ∧
      (o = [] → (plot_statistics a g o gls).occupation = none)) := by
  refine ⟨fun db => rfl, fun df gf gvs gls html => ?_, fun a g o gls => ?_⟩
  · rw [make_bokeh_charts_file]
    constructor
    · intro hnone v hv
      by_cases hc : (gvs.filter
          (fun v => !(df.filter (fun r => r.group == v)).isEmpty)).isEmpty = true
      · have hnil := List.isEmpty_iff.mp hc
        have hv2 := List.filter_eq_nil_iff.mp hnil v hv
        simpa [List.isEmpty_iff] using hv2
      · rw [if_neg hc] at hnone
        cases hnone
    · intro hall
      rw [if_pos]
      rw [List.isEmpty_iff, List.filter_eq_nil_iff]
      intro v hv
      simp [List.isEmpty_iff, hall v hv]
  · refine ⟨fun h => ?_, fun h => ?_, fun h => ?_⟩
    · subst h
      rfl
    · subst h
      rfl
    · subst h
      rfl

/-- Witness for C10 at empty collections and a database in which every
collection has one document. -/
theorem plot_reads_only_spec_witness :
    (plotPhase wdb).1 = wdb ∧
    ((make_bokeh_charts [] "group" [] [] "none.html").2 = none ↔
      ∀ v ∈ ([] : List String),
        ([] : List StatRow).filter (fun r => r.group == v) = []) ∧
    (plot_statistics [] [] [] []).age = none ∧
    (plot_statistics [] [] [] []).gender = none ∧
    (plot_statistics [] [] [] []).occupation = none := by
  obtain ⟨h1, h2, h3⟩ := plot_reads_only_spec
  obtain ⟨ha, hg, ho⟩ := h3 [] [] [] []
  exact ⟨h1 wdb, h2 [] "group" [] [] "none.html", ha rfl, hg rfl, ho rfl⟩

end ML100K
